import Mathlib

/-!
Verification of the pysql data-access layer.

Part 1 embeds `pysql/connection/sql_connection.py`: the `SQLConnection`
class captures seven environment variables at construction and
`get_engine` turns them into a connection-target string (the argument it
passes to `create_engine`) or raises `ValueError` on misconfiguration.
We model the environment as a snapshot function, error raising as
`Except String`, and the engine handle by the connection-target string
that determines it.

Part 2 embeds `pysql/model/base_model_dao.py`: the generic repository
`BaseModelDAO` resolves its bound entity shape from `__orig_bases__` at
construction and performs CRUD against the database.  The database is
modelled as a map from table (entity shape) names to lists of rows; each
operation is a pure function on that state, translated statement by
statement from the Python source.
-/

set_option maxHeartbeats 1000000
set_option linter.unusedVariables false

namespace PySql

/-- A snapshot of the process environment: `os.getenv`. -/
abbrev Env := String → Option String

/-- The fields of `SQLConnection.__init__`: the seven values read from the
environment via `os.getenv` (each `str | None` in the source). -/
structure SQLConnection where
  url : Option String
  user_db : Option String
  pass_db : Option String
  host_db : Option String
  port_db : Option String
  name_db : Option String
  sgdb : Option String
deriving DecidableEq, Repr

namespace SQLConnection

/-- `SQLConnection.__init__`: reads the seven configuration keys from the
environment, once, at construction. -/
def init (env : Env) : SQLConnection :=
  { url := env "URL"
    user_db := env "USER_DB"
    pass_db := env "PASS_DB"
    host_db := env "HOST_DB"
    port_db := env "PORT_DB"
    name_db := env "NAME_DB"
    sgdb := env "SGDB" }

/-- The seven environment keys consulted by `SQLConnection.__init__`. -/
def configKeys : List String :=
  ["URL", "USER_DB", "PASS_DB", "HOST_DB", "PORT_DB", "NAME_DB", "SGDB"]

/-- Python f-string interpolation of a `str | None` value. -/
def optStr : Option String → String
  | some s => s
  | none => "None"

/-- Python `str.lower()` (ASCII case folding, which covers the selector
values compared against). -/
def pyLower (s : String) : String :=
  String.mk (s.data.map Char.toLower)

/-- The `missing_vars` list comprehension of `get_engine`: the names, in
order, of the discrete parameters whose value is `None`. -/
def missingVars (self : SQLConnection) : List String :=
  (([("USER_DB", self.user_db), ("PASS_DB", self.pass_db),
     ("HOST_DB", self.host_db), ("PORT_DB", self.port_db),
     ("NAME_DB", self.name_db)] : List (String × Option String)).filter
    (fun p => p.2.isNone)).map Prod.fst

/-- `SQLConnection.get_engine`, translated line by line.  The result is the
`database_url` handed to `create_engine` (`.ok`) or the `ValueError`
message (`.error`).  `envAtCall` is the ambient process environment at call
time: it is in scope, as `os.environ` is for the Python method, but the
body never consults it — the method reads only the captured `self` fields. -/
def get_engine (self : SQLConnection) (envAtCall : Env) : Except String String :=
  match self.url with
  | some u => .ok u
  | none =>
    if missingVars self ≠ [] then
      .error ("Database connection parameters not set in environment variables: "
        ++ String.intercalate ", " (missingVars self))
    else
      match self.sgdb with
      | none => .error "SGDB is not set in environment variables."
      | some sgdb =>
        if pyLower sgdb == "sqlite" then
          .ok ("sqlite:///" ++ optStr self.name_db ++ ".db")
        else if pyLower sgdb == "postgres" then
          .ok ("postgresql://" ++ optStr self.user_db ++ ":" ++ optStr self.pass_db
            ++ "@" ++ optStr self.host_db ++ ":" ++ optStr self.port_db
            ++ "/" ++ optStr self.name_db)
        else if pyLower sgdb == "mysql" then
          .ok ("mysql+mysqlconnector://" ++ optStr self.user_db ++ ":" ++ optStr self.pass_db
            ++ "@" ++ optStr self.host_db ++ ":" ++ optStr self.port_db
            ++ "/" ++ optStr self.name_db)
        else .error ("Unsupported SGDB: " ++ sgdb)

end SQLConnection

/-! Part 2: the generic repository `BaseModelDAO` of
`pysql/model/base_model_dao.py`. -/

/-- An entity shape (a `SQLModel` class), identified by name; it names the
table the repository's session operations address. -/
abbrev Ty := String

/-- An instantiation of the generic triple `(ModelType, CreateType,
UpdateType)` at a representative entity: a persisted record with a
primary key `id` and two further columns. -/
structure Entity where
  id : Nat
  name : String
  age : Nat
deriving DecidableEq, Repr

/-- The creation payload (`CreateType`): the fields required to construct
a new `Entity`, excluding the store-generated primary key. -/
structure EntityCreate where
  name : String
  age : Nat
deriving DecidableEq, Repr

/-- The update payload (`UpdateType`): every mutable field optional;
`none` models a field absent from `model_dump(exclude_unset=True)`. -/
structure EntityUpdate where
  name : Option String
  age : Option Nat
deriving DecidableEq, Repr

/-- The relational store: each entity shape names a table holding its
rows, in insertion order. -/
abbrev DB := Ty → List Entity

/-- The empty store (no rows in any table). -/
def emptyDB : DB := fun _ => []

/-- Write one table of the store, leaving every other table unchanged
(the effect of a committed session that touched only that table). -/
def setTable (db : DB) (t : Ty) (rows : List Entity) : DB :=
  fun s => if s = t then rows else db s

/-- One element of `__orig_bases__`: `typing.get_origin` applied to the
base (`none` for a plain class such as unsubscripted `BaseModelDAO`) and
`typing.get_args` (the subscripted type arguments, as entity-shape
names). -/
structure OrigBase where
  origin : Option String
  args : List Ty
deriving DecidableEq, Repr

/-- The test `get_origin(base) is BaseModelDAO` from `__init__`. -/
def OrigBase.isDAOOrigin (b : OrigBase) : Bool :=
  b.origin == some "BaseModelDAO"

/-- The constructed repository: the entity shape recorded by `__init__`
(`self.model`) and the held connection provider
(`self._sql_connection`). -/
structure DAO where
  model : Ty
  sql_connection : SQLConnection

/-- The `for ... else` loop of `BaseModelDAO.__init__` over
`__orig_bases__`: the first base whose origin is `BaseModelDAO` must
carry exactly three type arguments, and its first argument becomes
`self.model`; with no such base the loop's `else` raises `TypeError`. -/
def resolveModel (clsName : String) : List OrigBase → Except String Ty
  | [] => .error ("Could not determine ModelType for " ++ clsName)
  | b :: rest =>
    if b.isDAOOrigin then
      if b.args.length ≠ 3 then .error "BaseModelDAO requires 3 type arguments"
      else .ok (b.args.headD "")
    else resolveModel clsName rest

/-- `BaseModelDAO.__init__`: resolve the binding from `__orig_bases__`,
then create and hold a `SQLConnection` from the current environment. -/
def initDAO (clsName : String) (bases : List OrigBase) (env : Env) : Except String DAO :=
  (resolveModel clsName bases).map (fun t => { model := t, sql_connection := SQLConnection.init env })

namespace DAO

/-- `get_all`: `session.exec(select(self.model)).all()` — every row of the
bound entity's table, in the store's order. -/
def get_all (dao : DAO) (db : DB) : List Entity :=
  db dao.model

/-- `get_by_id`: `session.get(self.model, obj_id)` — primary-key lookup in
the bound entity's table, `none` when no row has that key. -/
def get_by_id (dao : DAO) (db : DB) (obj_id : Nat) : Option Entity :=
  (db dao.model).find? (fun e => e.id == obj_id)

/-- The primary key the store assigns to a freshly inserted row at commit
(autoincrement: one more than the largest key in the table). -/
def nextId (rows : List Entity) : Nat :=
  rows.foldr (fun e m => max (e.id + 1) m) 0

/-- `create`: `model_validate` coerces the payload into a new entity,
`session.add` + `commit` insert it, and `refresh` re-reads it with its
store-assigned primary key; the refreshed entity is returned. -/
def create (dao : DAO) (db : DB) (obj_create : EntityCreate) : DB × Entity :=
  let rows := db dao.model
  let db_obj : Entity := { id := nextId rows, name := obj_create.name, age := obj_create.age }
  (setTable db dao.model (rows ++ [db_obj]), db_obj)

/-- The `setattr` loop of `update`: assign exactly the fields present in
`model_dump(exclude_unset=True)`; unset fields keep the entity's value. -/
def applyUpdate (e : Entity) (u : EntityUpdate) : Entity :=
  { e with name := u.name.getD e.name, age := u.age.getD e.age }

/-- `update`: fetch by key, return `none` when absent; otherwise assign
the explicitly-set payload fields, commit (an `UPDATE` of that primary
key), refresh, and return the updated entity. -/
def update (dao : DAO) (db : DB) (obj_id : Nat) (obj_update : EntityUpdate) :
    DB × Option Entity :=
  match get_by_id dao db obj_id with
  | none => (db, none)
  | some db_obj =>
    let db_obj2 := applyUpdate db_obj obj_update
    (setTable db dao.model
      ((db dao.model).map (fun e => if e.id == obj_id then db_obj2 else e)),
      some db_obj2)

/-- `delete`: fetch by key, return `none` when absent; otherwise
`session.delete` + `commit` (a `DELETE` of that primary key) and return
`True`. -/
def delete (dao : DAO) (db : DB) (obj_id : Nat) : DB × Option Bool :=
  match get_by_id dao db obj_id with
  | none => (db, none)
  | some _ =>
    (setTable db dao.model ((db dao.model).filter (fun e => e.id != obj_id)),
      some true)

/-- `N` successive `create` calls, threading the store. -/
def createMany (dao : DAO) (db : DB) (cs : List EntityCreate) : DB :=
  cs.foldl (fun d c => (create dao d c).1) db

end DAO

/-! Theorems about the connection provider. -/

open SQLConnection

/-- Claim C6: whenever the full connection string is present, `get_engine`
uses it verbatim as the connection target, performs no discrete-parameter
or engine-kind validation, and raises no configuration error — whatever
the other captured fields hold. -/
theorem url_used_verbatim (c : SQLConnection) (env : Env) (u : String)
    (h : c.url = some u) :
    c.get_engine env = .ok u := by
  simp only [get_engine, h]

/-- Witness for C6: a configuration whose discrete fields are all absent
and whose selector is absent still yields the URL verbatim. -/
theorem url_used_verbatim_witness :
    SQLConnection.get_engine ⟨some "sqlite:///x.db", none, none, none, none, none, none⟩
      (fun _ => none) = .ok "sqlite:///x.db" :=
  url_used_verbatim _ _ _ rfl

/-- Claim C4: with a complete discrete configuration the connection target
is built deterministically from the selector's template — `sqlite` yields
`sqlite:///{NAME_DB}.db`, `postgres` yields
`postgresql://{USER_DB}:{PASS_DB}@{HOST_DB}:{PORT_DB}/{NAME_DB}`, `mysql`
yields the `mysql+mysqlconnector://` URL of the same layout — and the
concrete postgres example yields exactly `postgresql://u:p@h:5432/db`. -/
theorem connection_target_templates :
    (∀ (env : Env) (u p h pt n : String),
      SQLConnection.get_engine ⟨none, some u, some p, some h, some pt, some n, some "sqlite"⟩ env
        = .ok ("sqlite:///" ++ n ++ ".db"))
  ∧ (∀ (env : Env) (u p h pt n : String),
      SQLConnection.get_engine ⟨none, some u, some p, some h, some pt, some n, some "postgres"⟩ env
        = .ok ("postgresql://" ++ u ++ ":" ++ p ++ "@" ++ h ++ ":" ++ pt ++ "/" ++ n))
  ∧ (∀ (env : Env) (u p h pt n : String),
      SQLConnection.get_engine ⟨none, some u, some p, some h, some pt, some n, some "mysql"⟩ env
        = .ok ("mysql+mysqlconnector://" ++ u ++ ":" ++ p ++ "@" ++ h ++ ":" ++ pt ++ "/" ++ n))
  ∧ SQLConnection.get_engine ⟨none, some "u", some "p", some "h", some "5432", some "db", some "postgres"⟩
      (fun _ => none) = .ok "postgresql://u:p@h:5432/db" :=
  ⟨fun _ _ _ _ _ _ => rfl, fun _ _ _ _ _ _ => rfl, fun _ _ _ _ _ _ => rfl, rfl⟩

/-- Claim C10: construction captures exactly the seven configuration keys
(two environments agreeing on them construct equal instances); for a fixed
instance `get_engine` is a pure function of the captured fields, so two
calls agree whatever the ambient environment has become, and in particular
environment changes after construction have no effect. -/
theorem env_captured_once :
    (∀ env env' : Env, (∀ k ∈ configKeys, env k = env' k) →
        SQLConnection.init env = SQLConnection.init env')
  ∧ (∀ (c : SQLConnection) (env1 env2 : Env), c.get_engine env1 = c.get_engine env2)
  ∧ (∀ env envLater : Env,
      (SQLConnection.init env).get_engine envLater = (SQLConnection.init env).get_engine env) := by
  refine ⟨fun env env' h => ?_, fun _ _ _ => rfl, fun _ _ => rfl⟩
  simp only [SQLConnection.init, SQLConnection.mk.injEq]
  exact ⟨h _ (by decide), h _ (by decide), h _ (by decide), h _ (by decide),
    h _ (by decide), h _ (by decide), h _ (by decide)⟩

/-- Witness for C10: two environments that differ only outside the seven
configuration keys construct the same instance. -/
theorem env_captured_once_witness :
    SQLConnection.init (fun k => if k = "NAME_DB" then some "db" else none)
      = SQLConnection.init
          (fun k => if k = "NAME_DB" then some "db"
            else if k = "OTHER_VAR" then some "x" else none) :=
  env_captured_once.1 _ _ (by decide)

/-- Claim C3: with no full connection string and at least one discrete
parameter missing, `get_engine` fails with the configuration error whose
message lists every missing field name (each of the five names appears in
`missing_vars` exactly when its value is absent), the failure is
independent of the engine-kind selector (it is raised before the selector
is examined), and no handle is returned. -/
theorem missing_fields_all_reported (c : SQLConnection) (env : Env)
    (h1 : c.url = none) (h2 : missingVars c ≠ []) :
    c.get_engine env
      = .error ("Database connection parameters not set in environment variables: "
          ++ String.intercalate ", " (missingVars c))
  ∧ (("USER_DB" ∈ missingVars c ↔ c.user_db = none)
      ∧ ("PASS_DB" ∈ missingVars c ↔ c.pass_db = none)
      ∧ ("HOST_DB" ∈ missingVars c ↔ c.host_db = none)
      ∧ ("PORT_DB" ∈ missingVars c ↔ c.port_db = none)
      ∧ ("NAME_DB" ∈ missingVars c ↔ c.name_db = none))
  ∧ (∀ s, SQLConnection.get_engine { c with sgdb := s } env = c.get_engine env)
  ∧ (∀ handle, c.get_engine env ≠ .ok handle) := by
  obtain ⟨u, a1, a2, a3, a4, a5, sg⟩ := c
  cases h1
  have hmain : SQLConnection.get_engine ⟨none, a1, a2, a3, a4, a5, sg⟩ env
      = .error ("Database connection parameters not set in environment variables: "
          ++ String.intercalate ", " (missingVars ⟨none, a1, a2, a3, a4, a5, sg⟩)) := by
    show (if missingVars ⟨none, a1, a2, a3, a4, a5, sg⟩ ≠ [] then _ else _) = _
    rw [if_pos h2]
  refine ⟨hmain, ?_, fun s => ?_, fun handle => ?_⟩
  · cases a1 <;> cases a2 <;> cases a3 <;> cases a4 <;> cases a5 <;>
      simp [missingVars]
  · have h2' : missingVars ⟨none, a1, a2, a3, a4, a5, s⟩ ≠ [] := h2
    show (if missingVars ⟨none, a1, a2, a3, a4, a5, s⟩ ≠ [] then _ else _) = _
    rw [if_pos h2', hmain]
    rfl
  · rw [hmain]; simp

/-- Witness for C3: with `PASS_DB` and `PORT_DB` both missing, the error
message names both fields, and both names are in `missing_vars`. -/
theorem missing_fields_all_reported_witness :
    SQLConnection.get_engine ⟨none, some "u", none, some "h", none, some "db", some "postgres"⟩
      (fun _ => none)
      = .error "Database connection parameters not set in environment variables: PASS_DB, PORT_DB"
    ∧ ("PASS_DB" ∈ missingVars ⟨none, some "u", none, some "h", none, some "db", some "postgres"⟩
        ↔ (none : Option String) = none) :=
  ⟨(missing_fields_all_reported _ (fun _ => none) rfl (by decide)).1,
   (missing_fields_all_reported _ (fun _ => none) rfl (by decide)).2.1.2.1⟩

/-- Claim C5: with the full string absent and all five discrete parameters
present, the selector is matched case-insensitively (via `str.lower()`)
against the closed set; an absent selector raises the dedicated error, an
unrecognized selector raises an error naming the supplied value and never
yields a handle, and a recognized selector (in any letter case) yields a
handle. -/
theorem sgdb_selector_validated (c : SQLConnection) (env : Env)
    (h1 : c.url = none) (h2 : missingVars c = []) :
    (c.sgdb = none → c.get_engine env = .error "SGDB is not set in environment variables.")
  ∧ (∀ s, c.sgdb = some s → pyLower s ∉ (["sqlite", "postgres", "mysql"] : List String) →
      c.get_engine env = .error ("Unsupported SGDB: " ++ s)
      ∧ ∀ handle, c.get_engine env ≠ .ok handle)
  ∧ (∀ s, c.sgdb = some s → pyLower s ∈ (["sqlite", "postgres", "mysql"] : List String) →
      ∃ handle, c.get_engine env = .ok handle) := by
  obtain ⟨u, a1, a2, a3, a4, a5, sg⟩ := c
  cases h1
  have hskip : ∀ (X Y : Except String String),
      (if missingVars ⟨none, a1, a2, a3, a4, a5, sg⟩ ≠ [] then X else Y) = Y := by
    intro X Y
    rw [if_neg (by simp [h2])]
  refine ⟨fun hsg => ?_, fun s hsg hmem => ?_, fun s hsg hmem => ?_⟩
  · cases hsg
    show (if _ ≠ [] then _ else _) = _
    rw [hskip]
  · cases hsg
    simp only [List.mem_cons, List.mem_singleton, not_or] at hmem
    obtain ⟨n1, n2, n3⟩ := hmem
    have hval : SQLConnection.get_engine ⟨none, a1, a2, a3, a4, a5, some s⟩ env
        = .error ("Unsupported SGDB: " ++ s) := by
      show (if _ ≠ [] then _ else _) = _
      rw [hskip]
      simp [n1, n2, n3]
    exact ⟨hval, fun handle => by rw [hval]; simp⟩
  · cases hsg
    simp only [List.mem_cons, List.not_mem_nil, or_false] at hmem
    have hred : SQLConnection.get_engine ⟨none, a1, a2, a3, a4, a5, some s⟩ env
        = (if pyLower s == "sqlite" then
            .ok ("sqlite:///" ++ optStr a5 ++ ".db")
          else if pyLower s == "postgres" then
            .ok ("postgresql://" ++ optStr a1 ++ ":" ++ optStr a2
              ++ "@" ++ optStr a3 ++ ":" ++ optStr a4 ++ "/" ++ optStr a5)
          else if pyLower s == "mysql" then
            .ok ("mysql+mysqlconnector://" ++ optStr a1 ++ ":" ++ optStr a2
              ++ "@" ++ optStr a3 ++ ":" ++ optStr a4 ++ "/" ++ optStr a5)
          else .error ("Unsupported SGDB: " ++ s)) := by
      show (if _ ≠ [] then _ else _) = _
      rw [hskip]
    rcases hmem with hm | hm | hm
    · exact ⟨"sqlite:///" ++ optStr a5 ++ ".db", by rw [hred, hm]; rfl⟩
    · exact ⟨"postgresql://" ++ optStr a1 ++ ":" ++ optStr a2 ++ "@" ++ optStr a3
        ++ ":" ++ optStr a4 ++ "/" ++ optStr a5, by rw [hred, hm]; rfl⟩
    · exact ⟨"mysql+mysqlconnector://" ++ optStr a1 ++ ":" ++ optStr a2 ++ "@" ++ optStr a3
        ++ ":" ++ optStr a4 ++ "/" ++ optStr a5, by rw [hred, hm]; rfl⟩

/-- Witness for C5: an unrecognized selector `oracle` fails naming the
value; an absent selector fails with the dedicated message. -/
theorem sgdb_selector_validated_witness :
    SQLConnection.get_engine ⟨none, some "u", some "p", some "h", some "1", some "db", some "oracle"⟩
      (fun _ => none) = .error "Unsupported SGDB: oracle"
    ∧ SQLConnection.get_engine ⟨none, some "u", some "p", some "h", some "1", some "db", none⟩
      (fun _ => none) = .error "SGDB is not set in environment variables." :=
  ⟨((sgdb_selector_validated _ (fun _ => none) rfl (by decide)).2.1 "oracle" rfl (by decide)).1,
   (sgdb_selector_validated _ (fun _ => none) rfl (by decide)).1 rfl⟩

/-! Theorems about the generic repository. -/

open DAO

theorem setTable_self (db : DB) (t : Ty) (rows : List Entity) :
    setTable db t rows t = rows := by
  simp [setTable]

theorem setTable_other (db : DB) (t s : Ty) (rows : List Entity) (h : s ≠ t) :
    setTable db t rows s = db s := by
  simp [setTable, h]

theorem lt_nextId (rows : List Entity) : ∀ e ∈ rows, e.id < nextId rows := by
  induction rows with
  | nil => intro e he; cases he
  | cons x xs ih =>
    intro e he
    show e.id < max (x.id + 1) (nextId xs)
    rcases List.mem_cons.mp he with rfl | he
    · exact Nat.lt_of_lt_of_le (Nat.lt_succ_self _) (le_max_left _ _)
    · exact Nat.lt_of_lt_of_le (ih e he) (le_max_right _ _)

theorem find?_append_fresh (rows : List Entity) (e : Entity)
    (h : ∀ x ∈ rows, x.id ≠ e.id) :
    (rows ++ [e]).find? (fun x => x.id == e.id) = some e := by
  induction rows with
  | nil => exact List.find?_cons_of_pos _ (by simp)
  | cons x xs ih =>
    have hx : x.id ≠ e.id := h x (List.mem_cons_self x xs)
    rw [List.cons_append, List.find?_cons_of_neg _ (by simpa using hx)]
    exact ih (fun y hy => h y (List.mem_cons_of_mem _ hy))

theorem find?_replace_self (rows : List Entity) (i : Nat) (e e2 : Entity)
    (hfind : rows.find? (fun x => x.id == i) = some e) (he2 : e2.id = i) :
    (rows.map (fun x => if x.id == i then e2 else x)).find? (fun x => x.id == i)
      = some e2 := by
  induction rows with
  | nil => simp [List.find?] at hfind
  | cons x xs ih =>
    by_cases hx : x.id = i
    · rw [List.map_cons, if_pos (by simpa using hx),
        List.find?_cons_of_pos _ (by simpa using he2)]
    · rw [List.find?_cons_of_neg _ (by simpa using hx)] at hfind
      rw [List.map_cons, if_neg (by simpa using hx),
        List.find?_cons_of_neg _ (by simpa using hx)]
      exact ih hfind

theorem find?_replace_other (rows : List Entity) (i j : Nat) (e2 : Entity)
    (hij : j ≠ i) (he2 : e2.id = i) :
    (rows.map (fun x => if x.id == i then e2 else x)).find? (fun x => x.id == j)
      = rows.find? (fun x => x.id == j) := by
  induction rows with
  | nil => rfl
  | cons x xs ih =>
    by_cases hx : x.id = i
    · rw [List.map_cons, if_pos (by simpa using hx),
        List.find?_cons_of_neg _ (by simp [he2, Ne.symm hij]),
        List.find?_cons_of_neg _ (by simp [hx, Ne.symm hij])]
      exact ih
    · by_cases hxj : x.id = j
      · rw [List.map_cons, if_neg (by simpa using hx),
          List.find?_cons_of_pos _ (by simpa using hxj),
          List.find?_cons_of_pos _ (by simpa using hxj)]
      · rw [List.map_cons, if_neg (by simpa using hx),
          List.find?_cons_of_neg _ (by simpa using hxj),
          List.find?_cons_of_neg _ (by simpa using hxj)]
        exact ih

theorem find?_filter_ne (rows : List Entity) (i : Nat) :
    (rows.filter (fun e => e.id != i)).find? (fun e => e.id == i) = none := by
  induction rows with
  | nil => rfl
  | cons x xs ih =>
    by_cases hx : x.id = i
    · rw [List.filter_cons_of_neg (by simpa using hx)]
      exact ih
    · rw [List.filter_cons_of_pos (by simpa using hx),
        List.find?_cons_of_neg _ (by simpa using hx)]
      exact ih

theorem create_table_eq (dao : DAO) (db : DB) (c : EntityCreate) :
    (dao.create db c).1 dao.model
      = db dao.model ++ [⟨nextId (db dao.model), c.name, c.age⟩] := by
  show setTable db dao.model _ dao.model = _
  rw [setTable_self]

/-- Claim C7: `create` returns the entity refreshed from the store — its
payload-supplied fields are the payload's and its key is the
store-assigned one — and a subsequent `get_by_id` with the returned key
yields exactly that entity. -/
theorem create_then_get (dao : DAO) (db : DB) (c : EntityCreate) :
    ((dao.create db c).2).name = c.name
  ∧ ((dao.create db c).2).age = c.age
  ∧ dao.get_by_id (dao.create db c).1 ((dao.create db c).2).id
      = some (dao.create db c).2 := by
  refine ⟨rfl, rfl, ?_⟩
  show (setTable db dao.model _ dao.model).find? _ = _
  rw [setTable_self]
  exact find?_append_fresh (db dao.model) _
    (fun x hx => Nat.ne_of_lt (lt_nextId (db dao.model) x hx))

/-- Claim C1: for an existing key, `update` assigns exactly the payload
fields that are explicitly set (unset fields keep the stored values, the
key is untouched), stores and returns the refreshed entity, and changes
nothing else — neither entities under other keys nor other tables; for a
missing key it returns `none` and leaves the store untouched. -/
theorem update_applies_exactly_set_fields (dao : DAO) (db : DB) (i : Nat)
    (u : EntityUpdate) :
    (∀ e, dao.get_by_id db i = some e →
      ∃ e', (dao.update db i u).2 = some e'
        ∧ e'.id = e.id
        ∧ (∀ v, u.name = some v → e'.name = v)
        ∧ (u.name = none → e'.name = e.name)
        ∧ (∀ v, u.age = some v → e'.age = v)
        ∧ (u.age = none → e'.age = e.age)
        ∧ dao.get_by_id (dao.update db i u).1 i = some e'
        ∧ (∀ j, j ≠ i → dao.get_by_id (dao.update db i u).1 j = dao.get_by_id db j)
        ∧ (∀ t, t ≠ dao.model → (dao.update db i u).1 t = db t))
  ∧ (dao.get_by_id db i = none → dao.update db i u = (db, none)) := by
  constructor
  · intro e hfind
    have hid : e.id = i := by
      have h := List.find?_some hfind
      simpa using h
    have hid2 : (applyUpdate e u).id = i := hid
    refine ⟨applyUpdate e u, ?_, rfl, ?_, ?_, ?_, ?_, ?_, ?_, ?_⟩
    · simp only [DAO.update, hfind]
    · intro v hv; simp [applyUpdate, hv]
    · intro hv; simp [applyUpdate, hv]
    · intro v hv; simp [applyUpdate, hv]
    · intro hv; simp [applyUpdate, hv]
    · simp only [DAO.update, hfind]
      show (setTable db dao.model _ dao.model).find? _ = _
      rw [setTable_self]
      exact find?_replace_self (db dao.model) i e _ hfind hid2
    · intro j hj
      simp only [DAO.update, hfind]
      show (setTable db dao.model _ dao.model).find? _ = _
      rw [setTable_self]
      exact find?_replace_other (db dao.model) i j _ hj hid2
    · intro t ht
      simp only [DAO.update, hfind]
      exact setTable_other db dao.model t _ ht
  · intro hfind
    simp only [DAO.update, hfind]

/-- Claim C8: `delete` on an existing key removes the row — a subsequent
`get_by_id` returns `none` — returns the success indicator `True` (not
the deleted entity) and leaves other tables untouched; on a missing key
it returns `none` without error and without changing the store. -/
theorem delete_removes_row (dao : DAO) (db : DB) (i : Nat) :
    (∀ e, dao.get_by_id db i = some e →
        (dao.delete db i).2 = some true
      ∧ dao.get_by_id (dao.delete db i).1 i = none
      ∧ (∀ t, t ≠ dao.model → (dao.delete db i).1 t = db t))
  ∧ (dao.get_by_id db i = none → dao.delete db i = (db, none)) := by
  constructor
  · intro e hfind
    refine ⟨?_, ?_, ?_⟩
    · simp only [DAO.delete, hfind]
    · simp only [DAO.delete, hfind]
      show (setTable db dao.model _ dao.model).find? _ = _
      rw [setTable_self]
      exact find?_filter_ne (db dao.model) i
    · intro t ht
      simp only [DAO.delete, hfind]
      exact setTable_other db dao.model t _ ht
  · intro hfind
    simp only [DAO.delete, hfind]

theorem createMany_table_length (dao : DAO) (cs : List EntityCreate) :
    ∀ db : DB, ((dao.createMany db cs) dao.model).length = (db dao.model).length + cs.length := by
  induction cs with
  | nil => intro db; rfl
  | cons c cs ih =>
    intro db
    show ((dao.createMany (dao.create db c).1 cs) dao.model).length = _
    rw [ih, create_table_eq]
    simp
    omega

/-- Claim C9: `get_all` returns an ordered sequence, never an absence or
an error: on an empty table it is the empty sequence, and after `N`
successful creates starting from the empty store it has exactly `N`
entities. -/
theorem list_returns_all_rows :
    (∀ (dao : DAO) (db : DB), db dao.model = [] → dao.get_all db = [])
  ∧ (∀ (dao : DAO) (cs : List EntityCreate),
      (dao.get_all (dao.createMany emptyDB cs)).length = cs.length) := by
  constructor
  · intro dao db h; exact h
  · intro dao cs
    show ((dao.createMany emptyDB cs) dao.model).length = cs.length
    rw [createMany_table_length]
    simp [emptyDB]

theorem resolveModel_skip (cls : String) (pre rest : List OrigBase)
    (hpre : ∀ x ∈ pre, x.isDAOOrigin = false) :
    resolveModel cls (pre ++ rest) = resolveModel cls rest := by
  induction pre with
  | nil => rfl
  | cons b pre ih =>
    have hb := hpre b (List.mem_cons_self b pre)
    show resolveModel cls (b :: (pre ++ rest)) = _
    rw [resolveModel, if_neg (by simp [hb])]
    exact ih (fun x hx => hpre x (List.mem_cons_of_mem _ hx))

/-- Claim C2: when no base of `__orig_bases__` has origin `BaseModelDAO`
(e.g. an unparameterized subclass) or the first such base does not carry
exactly three type arguments, construction fails with a binding error —
no repository value exists, so no operation can run; when the binding is
determined, the constructed repository records the first type argument as
its entity shape, and every operation reads only that shape's table and
writes no other table. -/
theorem binding_determined_at_construction (clsName : String) :
    (∀ (bases : List OrigBase) (env : Env),
        (∀ b ∈ bases, b.isDAOOrigin = false) →
        ∃ msg, initDAO clsName bases env = .error msg)
  ∧ (∀ (pre rest : List OrigBase) (b : OrigBase) (env : Env),
        (∀ x ∈ pre, x.isDAOOrigin = false) → b.isDAOOrigin = true →
        b.args.length ≠ 3 →
        ∃ msg, initDAO clsName (pre ++ b :: rest) env = .error msg)
  ∧ (∀ (pre rest : List OrigBase) (b : OrigBase) (env : Env) (t c u : Ty),
        (∀ x ∈ pre, x.isDAOOrigin = false) → b.isDAOOrigin = true →
        b.args = [t, c, u] →
        ∃ dao, initDAO clsName (pre ++ b :: rest) env = .ok dao ∧ dao.model = t)
  ∧ (∀ (dao : DAO) (db1 db2 : DB), db1 dao.model = db2 dao.model →
        dao.get_all db1 = dao.get_all db2
      ∧ (∀ i, dao.get_by_id db1 i = dao.get_by_id db2 i)
      ∧ (∀ c, (dao.create db1 c).2 = (dao.create db2 c).2)
      ∧ (∀ i u, (dao.update db1 i u).2 = (dao.update db2 i u).2)
      ∧ (∀ i, (dao.delete db1 i).2 = (dao.delete db2 i).2))
  ∧ (∀ (dao : DAO) (db : DB) (t : Ty), t ≠ dao.model →
        (∀ c, (dao.create db c).1 t = db t)
      ∧ (∀ i u, (dao.update db i u).1 t = db t)
      ∧ (∀ i, (dao.delete db i).1 t = db t)) := by
  refine ⟨fun bases env h => ?_, fun pre rest b env hpre hb hlen => ?_,
    fun pre rest b env t c u hpre hb hargs => ?_,
    fun dao db1 db2 h => ?_, fun dao db t ht => ?_⟩
  · refine ⟨"Could not determine ModelType for " ++ clsName, ?_⟩
    have hskip := resolveModel_skip clsName bases [] h
    rw [List.append_nil] at hskip
    simp [initDAO, hskip, resolveModel, Except.map]
  · refine ⟨"BaseModelDAO requires 3 type arguments", ?_⟩
    rw [initDAO, resolveModel_skip clsName pre (b :: rest) hpre,
      resolveModel, if_pos (by simp [hb]), if_pos hlen]
    rfl
  · refine ⟨{ model := t, sql_connection := SQLConnection.init env }, ?_, rfl⟩
    rw [initDAO, resolveModel_skip clsName pre (b :: rest) hpre,
      resolveModel, if_pos (by simp [hb]), if_neg (by simp [hargs])]
    simp [hargs, Except.map]
  · refine ⟨h, fun i => ?_, fun c => ?_, fun i u => ?_, fun i => ?_⟩
    · simp only [DAO.get_by_id, h]
    · simp only [DAO.create, h]
    · simp only [DAO.update, DAO.get_by_id, h]
      cases hfind : List.find? (fun e => e.id == i) (db2 dao.model) <;> rfl
    · simp only [DAO.delete, DAO.get_by_id, h]
      cases hfind : List.find? (fun e => e.id == i) (db2 dao.model) <;> rfl
  · refine ⟨fun c => setTable_other db dao.model t _ ht, fun i u => ?_, fun i => ?_⟩
    · cases hf : dao.get_by_id db i with
      | none => simp only [DAO.update, hf]
      | some e =>
        simp only [DAO.update, hf]
        exact setTable_other db dao.model t _ ht
    · cases hf : dao.get_by_id db i with
      | none => simp only [DAO.delete, hf]
      | some e =>
        simp only [DAO.delete, hf]
        exact setTable_other db dao.model t _ ht

/-- Witness for C2: an unsubscripted base yields a binding error, a
two-argument subscription yields a binding error, and the proper
three-argument subscription records `User` as the bound entity shape. -/
theorem binding_determined_at_construction_witness :
    (∃ msg, initDAO "UserDAO" [{ origin := none, args := [] }] (fun _ => none)
        = .error msg)
  ∧ (∃ msg, initDAO "UserDAO"
        [{ origin := some "BaseModelDAO", args := ["User", "UserCreate"] }]
        (fun _ => none) = .error msg)
  ∧ (∃ dao, initDAO "UserDAO"
        [{ origin := some "BaseModelDAO", args := ["User", "UserCreate", "UserUpdate"] }]
        (fun _ => none) = .ok dao ∧ dao.model = "User") :=
  ⟨(binding_determined_at_construction "UserDAO").1 _ _ (by decide),
   (binding_determined_at_construction "UserDAO").2.1 [] []
     { origin := some "BaseModelDAO", args := ["User", "UserCreate"] }
     (fun _ => none) (by decide) (by decide) (by decide),
   (binding_determined_at_construction "UserDAO").2.2.1 [] []
     { origin := some "BaseModelDAO", args := ["User", "UserCreate", "UserUpdate"] }
     (fun _ => none) "User" "UserCreate" "UserUpdate" (by decide) (by decide) rfl⟩

/-- A concrete repository and store used by the witnesses: a `User` table
holding two rows. -/
def dao0 : DAO :=
  { model := "User", sql_connection := SQLConnection.init (fun _ => none) }

def db0 : DB := setTable emptyDB "User" [⟨1, "ann", 10⟩, ⟨2, "bob", 20⟩]

/-- Witness for C1: updating key `1` with a payload that sets only `name`
gives an entity with the new name, the old `age` and `id`, stores it, and
leaves the entity under key `2` and every other table unchanged. -/
theorem update_applies_exactly_set_fields_witness :
    dao0.get_by_id db0 1 = some ⟨1, "ann", 10⟩
  ∧ ∃ e', (dao0.update db0 1 ⟨some "zoe", none⟩).2 = some e'
      ∧ e'.id = 1
      ∧ (∀ v, (some "zoe" : Option String) = some v → e'.name = v)
      ∧ ((some "zoe" : Option String) = none → e'.name = "ann")
      ∧ (∀ v, (none : Option Nat) = some v → e'.age = v)
      ∧ ((none : Option Nat) = none → e'.age = 10)
      ∧ dao0.get_by_id (dao0.update db0 1 ⟨some "zoe", none⟩).1 1 = some e'
      ∧ (∀ j, j ≠ 1 →
          dao0.get_by_id (dao0.update db0 1 ⟨some "zoe", none⟩).1 j = dao0.get_by_id db0 j)
      ∧ (∀ t, t ≠ dao0.model → (dao0.update db0 1 ⟨some "zoe", none⟩).1 t = db0 t) :=
  ⟨rfl, (update_applies_exactly_set_fields dao0 db0 1 ⟨some "zoe", none⟩).1 ⟨1, "ann", 10⟩ rfl⟩

/-- Witness for C8: deleting key `2` returns `True` and a subsequent
lookup of key `2` is absent; deleting the missing key `99` returns the
absence value and leaves the store untouched. -/
theorem delete_removes_row_witness :
    dao0.get_by_id db0 2 = some ⟨2, "bob", 20⟩
  ∧ ((dao0.delete db0 2).2 = some true
      ∧ dao0.get_by_id (dao0.delete db0 2).1 2 = none
      ∧ (∀ t, t ≠ dao0.model → (dao0.delete db0 2).1 t = db0 t))
  ∧ dao0.delete db0 99 = (db0, none) :=
  ⟨rfl, (delete_removes_row dao0 db0 2).1 ⟨2, "bob", 20⟩ rfl,
   (delete_removes_row dao0 db0 99).2 rfl⟩

/-- Witness for C9: the empty store lists no entities, and after three
creates the list has exactly three. -/
theorem list_returns_all_rows_witness :
    emptyDB dao0.model = []
  ∧ dao0.get_all emptyDB = []
  ∧ (dao0.get_all (dao0.createMany emptyDB [⟨"a", 1⟩, ⟨"b", 2⟩, ⟨"c", 3⟩])).length = 3 :=
  ⟨rfl, list_returns_all_rows.1 dao0 emptyDB rfl,
   list_returns_all_rows.2 dao0 [⟨"a", 1⟩, ⟨"b", 2⟩, ⟨"c", 3⟩]⟩

end PySql
